import Mathlib

/-!
Shallow embedding of the chunked-upload / PDF-compression pipeline of the
`compressPdf` repository, together with proofs settling the frozen claims.

Source files embedded:
* `app/services/pdf_service.py` — `CompressionResult`, `PDFCompressor`
  (`_find_ghostscript`, `_get_ghostscript_command`, `compress_pdf_file`) and
  the module-level `pdf_compressor = PDFCompressor()` initialisation.
* `app/routes/pdf.py` — `upload_chunk` (POST /pdf/chunk) and
  `compress_complete_file` (POST /pdf/compress/\x7bfileName\x7d).

Modelling conventions:
* Byte strings are `List Nat`.
* The session directory `UPLOAD_DIR / fileName` is an association list of
  (file name, content) pairs in creation order; `Option Dir` distinguishes
  a missing directory from an empty one.
* `os.path.exists` and the Ghostscript subprocess are black-box parameters.
* Python floats are modelled as exact rationals `ℚ`.
* Exceptions are modelled with `Except`.
-/

abbrev Bytes := List Nat

/-! ## app/services/pdf_service.py -/

/-- `CompressionResult` dataclass (pdf_service.py lines 13–21). -/
structure CompressionResult where
  compressed_content : Bytes
  original_size : Nat
  compressed_size : Nat
  compression_ratio : ℚ
  original_name : String
  compressed_name : String
  deriving DecidableEq

/-- `PDFCompressor`: its only state is the Ghostscript path found by
`_find_ghostscript` in `__init__`. -/
structure PDFCompressor where
  ghostscript_path : String
  deriving DecidableEq

/-- `default_path = '/usr/local/bin/gs'` (pdf_service.py line 32). -/
def default_path : String := "/usr/local/bin/gs"

/-- `alternative_paths` (pdf_service.py lines 36–40). -/
def alternative_paths : List String :=
  ["/opt/homebrew/bin/gs", "/usr/bin/gs", "/usr/local/Cellar/ghostscript/*/bin/gs"]

/-- `PDFCompressor._find_ghostscript` (pdf_service.py lines 30–46):
probes `default_path` then `alternative_paths` with `os.path.exists`
(modelled by the `pathExists` oracle); raises
`RuntimeError("Ghostscript não encontrado no sistema")` if none exists. -/
def find_ghostscript (pathExists : String → Bool) : Except String String :=
  if pathExists default_path then .ok default_path
  else
    match alternative_paths.find? pathExists with
    | some p => .ok p
    | none => .error "Ghostscript não encontrado no sistema"

/-- `PDFCompressor.__init__` (pdf_service.py lines 26–28): construction fails
when `_find_ghostscript` raises. -/
def PDFCompressor.init (pathExists : String → Bool) : Except String PDFCompressor :=
  (find_ghostscript pathExists).map PDFCompressor.mk

/-- `pdf_compressor = PDFCompressor()` (pdf_service.py line 163): the instance
is built when the module is imported, i.e. at process startup; if
`_find_ghostscript` raises, the import — and so the whole process — fails. -/
def pdf_compressor (pathExists : String → Bool) : Except String PDFCompressor :=
  PDFCompressor.init pathExists

/-- `PDFCompressor._get_ghostscript_command` (pdf_service.py lines 48–73). -/
def get_ghostscript_command (gs_path input_path output_path : String)
    (compression_level : String) (image_resolution : Nat) : List String :=
  [gs_path,
   "-sDEVICE=pdfwrite",
   "-dCompatibilityLevel=1.4",
   "-dPDFSETTINGS=/" ++ compression_level,
   "-dNOPAUSE",
   "-dQUIET",
   "-dBATCH",
   "-r" ++ toString image_resolution,
   "-dColorImageDownsampleType=/Bicubic",
   "-dColorImageResolution=" ++ toString image_resolution,
   "-dGrayImageDownsampleType=/Bicubic",
   "-dGrayImageResolution=" ++ toString image_resolution,
   "-dMonoImageDownsampleType=/Bicubic",
   "-dMonoImageResolution=" ++ toString image_resolution,
   "-dAutoFilterColorImages=false",
   "-dColorImageFilter=/DCTEncode",
   "-dAutoFilterGrayImages=false",
   "-dGrayImageFilter=/DCTEncode",
   "-sOutputFile=" ++ output_path,
   input_path]

/-- Outcome of the `subprocess.run(command, check=True, ...)` Ghostscript call
followed by the `output_path.exists()` probe (pdf_service.py lines 107–122):
either the process exits non-zero (`subprocess.CalledProcessError`, since
`check=True`), or it exits 0 without producing the output file, or it exits 0
having written `output` to the output file. -/
inductive GsOutcome where
  | exitNonzero (stderr : String)
  | noOutputFile
  | wrote (output : Bytes)
  deriving DecidableEq

/-- `PDFCompressor.compress_pdf_file` (pdf_service.py lines 75–160).

The uploaded file is (filename, content); `temp_dir` is the
`tempfile.TemporaryDirectory()` name; `runGs` is the Ghostscript subprocess as
a black box taking the command line and the bytes at the command's input path.

Faithful control flow:
* non-zero exit  → `except subprocess.CalledProcessError` branch →
  `ValueError(f"Erro na compressão: \x7be.stderr\x7d")`;
* missing output file → `ValueError("Falha ao gerar arquivo comprimido")`,
  re-wrapped by the generic `except Exception` branch into
  `ValueError(f"Erro ao processar PDF: ...")`;
* `compression_ratio = (1 - compressed_size/original_size) * 100` (line 126)
  runs BEFORE the fallback test (line 135), so an empty input raises
  `ZeroDivisionError`, caught by the generic branch;
* fallback (lines 134–144): if `compressed_size >= original_size` return the
  original bytes with ratio 0 and `compressed_size = original_size`;
* otherwise (lines 146–153) return the compressed bytes with the ratio. -/
def compress_pdf_file (c : PDFCompressor) (temp_dir filename : String)
    (content : Bytes) (runGs : List String → Bytes → GsOutcome)
    (compression_level : String := "screen") (image_resolution : Nat := 72) :
    Except String CompressionResult :=
  let input_path := temp_dir ++ "/" ++ filename
  let output_path := temp_dir ++ "/compressed_" ++ filename
  let original_size := content.length
  let command := get_ghostscript_command c.ghostscript_path input_path output_path
      compression_level image_resolution
  match runGs command content with
  | .exitNonzero stderr => .error ("Erro na compressão: " ++ stderr)
  | .noOutputFile => .error "Erro ao processar PDF: Falha ao gerar arquivo comprimido"
  | .wrote compressed_content =>
    let compressed_size := compressed_content.length
    if original_size = 0 then
      .error "Erro ao processar PDF: division by zero"
    else
      let compression_ratio : ℚ :=
        (1 - (compressed_size : ℚ) / (original_size : ℚ)) * 100
      if original_size ≤ compressed_size then
        .ok ⟨content, original_size, original_size, 0, filename, filename⟩
      else
        .ok ⟨compressed_content, original_size, compressed_size,
             compression_ratio, filename, "compressed_" ++ filename⟩

/-! ## app/routes/pdf.py -/

/-- The session directory `UPLOAD_DIR / fileName`: (file name, content) pairs
in creation order. File names inside a directory are unique (a filesystem
invariant `writeFile` preserves). -/
abbrev Dir := List (String × Bytes)

/-- `path.write_bytes(content)`: overwrite the file if it exists, otherwise
create it at the end of the directory listing. -/
def writeFile (d : Dir) (name : String) (content : Bytes) : Dir :=
  if d.any (fun p => p.1 == name) then
    d.map (fun p => if p.1 == name then (name, content) else p)
  else d ++ [(name, content)]

/-- `path.read_bytes()` / existence probe: the first (only) entry named
`name`. -/
def readFile (d : Dir) (name : String) : Option Bytes :=
  (d.find? (fun p => p.1 == name)).map (fun p => p.2)

/-- Chunk file name `f"chunk_{chunkIndex}"` (pdf.py line 51). -/
def chunkName (i : Nat) : String := "chunk_" ++ toString i

/-- Whether a file name matches the glob pattern `"chunk_*"`: the name starts
with the characters `chunk_` (stated on the character list, where matching is
structural). -/
def isChunkFile (name : String) : Bool := "chunk_".data.isPrefixOf name.data

/-- Python `int(...)` applied to a string of decimal digits, stated on the
character list (this is `String.toNat?` restated structurally: non-empty, all
digits, fold the digit values). -/
def parseDecimal (l : List Char) : Option Nat :=
  if !l.isEmpty && l.all Char.isDigit then
    some (l.foldl (fun n c => n * 10 + (c.toNat - 48)) 0)
  else none

/-- `file_dir.glob("chunk_*")`: the chunk files, in directory order. -/
def globChunks (d : Dir) : List (String × Bytes) :=
  d.filter (fun p => isChunkFile p.1)

/-- `HTTPException(status_code, detail)`. -/
structure HTTPError where
  status_code : Nat
  detail : String
  deriving DecidableEq

/-- The JSON body returned by `upload_chunk` (pdf.py lines 72–78); the
progress percentage is kept as an exact rational and the chunk size in bytes
(the source only formats these into strings). -/
structure ChunkResponse where
  success : Bool
  chunksReceived : Nat
  totalChunks : Nat
  progressPercent : ℚ
  chunkSizeBytes : Nat
  deriving DecidableEq

/-- `upload_chunk` (pdf.py lines 23–91), acting on the session directory of
`fileName` (`none` = the directory does not exist yet).

* `chunk` is the `UploadFile = File(...)` parameter: `none` models a missing
  file object. Note `if not chunk:` (line 39) tests the `UploadFile` OBJECT,
  which is always truthy when present — it never inspects the payload, so an
  empty payload passes the guard.
* `file_dir.mkdir(exist_ok=True)` (line 48) creates the directory if absent.
* The chunk is written (overwriting any previous upload of the same index,
  line 54) BEFORE `existing_chunks` is counted by globbing (line 57), so the
  count is over distinct stored indices.
* `progress = (existing_chunks / totalChunks) * 100` (line 61) raises
  `ZeroDivisionError` when `totalChunks = 0`, caught by the generic
  `except` (lines 83–89) → `HTTPException(500, ...)` — after the write. -/
def upload_chunk (chunk : Option Bytes) (chunkIndex totalChunks : Nat)
    (d : Option Dir) : Except HTTPError ChunkResponse × Option Dir :=
  match chunk with
  | none => (.error ⟨400, "Nenhum arquivo recebido"⟩, d)
  | some content =>
    let file_dir := d.getD []
    let d' := writeFile file_dir (chunkName chunkIndex) content
    let existing_chunks := (globChunks d').length
    if totalChunks = 0 then
      (.error ⟨500, "Erro no upload do chunk " ++ toString chunkIndex ++
        ": division by zero"⟩, some d')
    else
      let progress : ℚ := ((existing_chunks : ℚ) / (totalChunks : ℚ)) * 100
      (.ok ⟨true, existing_chunks, totalChunks, progress, content.length⟩, some d')

/-- Sort key of the chunk sort (pdf.py line 109):
`key=lambda x: int(x.name.split('_')[1])`. Every name matching the glob
`"chunk_*"` starts with the 6 characters `"chunk_"`, and the names
`upload_chunk` creates continue with decimal digits only, so
`x.name.split('_')[1]` is the name with its 6-character prefix dropped and
`int(...)` is the decimal parse (totalised with 0; on the names the code
creates the parse never fails). -/
def chunkIdxOf (name : String) : Nat := (parseDecimal (name.data.drop 6)).getD 0

/-- `sorted(file_dir.glob("chunk_*"), key=lambda x: int(x.name.split('_')[1]))`
(pdf.py lines 108–109). Python's `sorted` is a stable comparison sort; on the
directories the code can produce the keys are pairwise distinct, so any
sorting algorithm returns the same list; we use `List.insertionSort`, which is
also stable. -/
def sortedChunks (d : Dir) : List (String × Bytes) :=
  (globChunks d).insertionSort (fun a b => chunkIdxOf a.1 ≤ chunkIdxOf b.1)

/-- The byte stream written to `complete.pdf` by the assembly loop
(pdf.py lines 107–120): the chunk contents concatenated in sorted order. -/
def assembleChunks (d : Dir) : Bytes :=
  (sortedChunks d).foldl (fun acc p => acc ++ p.2) []

/-- `total_size` accumulated by the assembly loop (pdf.py lines 114–117). -/
def totalSizeOf (d : Dir) : Nat :=
  ((sortedChunks d).map (fun p => p.2.length)).sum

/-- A successful `StreamingResponse` (pdf.py lines 150–156). -/
structure StreamingResponse where
  body : Bytes
  media_type : String
  content_disposition : String
  deriving DecidableEq

/-- The `except` branch of `compress_complete_file` (pdf.py lines 158–177):
best-effort cleanup (`glob("*")` unlink loop + `rmdir`, any cleanup exception
swallowed by lines 171–172), then `HTTPException(500, f"Erro na compressão:
{str(e)}")`. `errCleanupFault` injects an OS fault into the cleanup attempt:
the directory is then left as it was, and only the log records the fault. -/
def finalizeErrorHandler (e : String) (d : Option Dir) (errCleanupFault : Bool) :
    Except HTTPError StreamingResponse × Option Dir :=
  let d' : Option Dir :=
    match d with
    | none => none
    | some files => if errCleanupFault then some files else none
  (.error ⟨500, "Erro na compressão: " ++ e⟩, d')

/-- `compress_complete_file` (pdf.py lines 93–177), acting on the session
directory of `fileName`.

* `engine` is `compress_pdf(output_path, compression_level='screen',
  image_resolution=72)` (lines 127–131). The function `compress_pdf` is
  imported from `app.services.pdf_service` but is absent from the sources.
  Modelled from the spec: §4.3 describes it as the black-box
  CompressionEngineAdapter taking the input byte stream (the bytes at
  `output_path`) and the profile (level, resolution) and returning the output
  byte stream or failing; a failure propagates as an exception into the
  `except` branch.
* `cleanupFault` injects an OS fault at the start of the success-path cleanup
  (lines 137–147); the exception it raises is caught by the same generic
  `except` branch as any other failure.
* Control flow, faithfully:
  1. `open(output_path, 'wb')` (line 107) raises `FileNotFoundError` when the
     session directory does not exist; otherwise it creates/truncates
     `complete.pdf` (not matched by the glob `"chunk_*"`).
  2. chunks are globbed, sorted by numeric index, and concatenated into
     `complete.pdf`; `total_size` is the sum of chunk sizes. There is NO
     completeness check: neither `totalChunks` nor the set of expected
     indices is consulted.
  3. the engine runs on the assembled bytes with the fixed profile
     `('screen', 72)`.
  4. `compression_ratio = ((total_size - compressed_size) / total_size) * 100`
     (line 133, only logged) raises `ZeroDivisionError` when `total_size = 0`.
  5. success-path cleanup (lines 137–147): unlink every `chunk_*` file,
     unlink `complete.pdf`, then `rmdir` — which raises if the directory is
     still non-empty. This all happens INSIDE the `try`, before the response
     is built, so any cleanup exception is handled like a compression error.
  6. on success, the compressed buffer is streamed back. -/
def compress_complete_file (fileName : String) (d : Option Dir)
    (engine : Bytes → String → Nat → Except String Bytes)
    (cleanupFault errCleanupFault : Bool) :
    Except HTTPError StreamingResponse × Option Dir :=
  match d with
  | none =>
    finalizeErrorHandler "[Errno 2] No such file or directory" none errCleanupFault
  | some files =>
    let files₁ := writeFile files "complete.pdf" []
    let assembled := assembleChunks files₁
    let total_size := totalSizeOf files₁
    let files₂ := writeFile files₁ "complete.pdf" assembled
    match engine assembled "screen" 72 with
    | .error e => finalizeErrorHandler e (some files₂) errCleanupFault
    | .ok compressed_buffer =>
      if total_size = 0 then
        finalizeErrorHandler "division by zero" (some files₂) errCleanupFault
      else if cleanupFault then
        finalizeErrorHandler "cleanup OS error" (some files₂) errCleanupFault
      else
        let files₃ := files₂.filter (fun p => !isChunkFile p.1)
        let files₄ := files₃.filter (fun p => p.1 != "complete.pdf")
        if files₄.isEmpty then
          (.ok ⟨compressed_buffer, "application/pdf",
            "attachment; filename=compressed_" ++ fileName⟩, none)
        else
          finalizeErrorHandler "Directory not empty" (some files₄) errCleanupFault

-- Decidable equality of call results, used to evaluate the model on
-- concrete inputs.
deriving instance DecidableEq for Except

/-! ## Decimal-string facts

`chunkIdxOf (chunkName i) = i`: parsing the decimal suffix of the chunk file
name recovers the chunk index. This rests on the round-trip
`(Nat.repr i).toNat? = some i`, proved via an explicit digit list. -/

/-- The decimal digit characters of `n`, most significant first. -/
def decDigits (n : Nat) : List Char :=
  if n < 10 then [Nat.digitChar n]
  else decDigits (n / 10) ++ [Nat.digitChar (n % 10)]
termination_by n
decreasing_by exact Nat.div_lt_self (by omega) (by omega)

theorem decDigits_ne_nil (n : Nat) : decDigits n ≠ [] := by
  rw [decDigits]
  split
  · simp
  · simp

theorem toDigitsCore_eq : ∀ (fuel n : Nat) (ds : List Char), n < fuel →
    Nat.toDigitsCore 10 fuel n ds = decDigits n ++ ds := by
  intro fuel
  induction fuel with
  | zero => intro n ds h; omega
  | succ f ih =>
    intro n ds hn
    by_cases hz : n / 10 = 0
    · have hlt : n < 10 := by omega
      have hm : n % 10 = n := Nat.mod_eq_of_lt hlt
      simp only [Nat.toDigitsCore, hz, if_pos, hm]
      rw [decDigits]
      simp [hlt]
    · have h10 : 10 ≤ n := by
        by_contra hc
        exact hz (Nat.div_eq_of_lt (by omega))
      have hdivlt : n / 10 < f := by
        have hx : n / 10 < n := Nat.div_lt_self (by omega) (by omega)
        omega
      simp only [Nat.toDigitsCore, hz, if_neg]
      rw [ih (n / 10) _ hdivlt]
      conv_rhs => rw [decDigits]
      simp [Nat.not_lt.mpr h10]

theorem toDigits_eq_decDigits (n : Nat) : Nat.toDigits 10 n = decDigits n := by
  have := toDigitsCore_eq (n + 1) n [] (Nat.lt_succ_self n)
  simpa [Nat.toDigits] using this

theorem digitChar_isDigit : ∀ m, m < 10 → (Nat.digitChar m).isDigit = true := by decide

theorem digitChar_val : ∀ m, m < 10 → (Nat.digitChar m).toNat - 48 = m := by decide

theorem decDigits_all_isDigit (n : Nat) : (decDigits n).all Char.isDigit = true := by
  induction n using Nat.strong_induction_on with
  | _ n ih =>
    rw [decDigits]
    split
    · next h => simp [digitChar_isDigit n h]
    · next h =>
      have h10 : 10 ≤ n := by omega
      have hrec := ih (n / 10) (Nat.div_lt_self (by omega) (by omega))
      simp [List.all_append, hrec, digitChar_isDigit (n % 10) (Nat.mod_lt _ (by omega))]

theorem decDigits_foldl (n : Nat) : ∀ a : Nat,
    (decDigits n).foldl (fun acc c => acc * 10 + (c.toNat - 48)) a
      = a * 10 ^ (decDigits n).length + n := by
  induction n using Nat.strong_induction_on with
  | _ n ih =>
    intro a
    rw [decDigits]
    split
    · next h =>
      simp [List.foldl, digitChar_val n h]
    · next h =>
      have h10 : 10 ≤ n := by omega
      have hrec := ih (n / 10) (Nat.div_lt_self (by omega) (by omega))
      rw [List.foldl_append, hrec a]
      simp only [List.foldl, List.length_append, List.length_singleton]
      rw [digitChar_val (n % 10) (Nat.mod_lt _ (by omega))]
      rw [pow_succ]
      have key : ∀ M : Nat, (M + n / 10) * 10 + n % 10 = M * 10 + n := by omega
      calc (a * 10 ^ (decDigits (n / 10)).length + n / 10) * 10 + n % 10
          = a * 10 ^ (decDigits (n / 10)).length * 10 + n := key _
        _ = a * (10 ^ (decDigits (n / 10)).length * 10) + n := by ring_nf

theorem repr_data (n : Nat) : (Nat.repr n).data = decDigits n := by
  show (Nat.toDigits 10 n).asString.data = decDigits n
  rw [toDigits_eq_decDigits]
  rfl

theorem parseDecimal_repr (n : Nat) : parseDecimal (Nat.repr n).data = some n := by
  rw [repr_data]
  have hne : decDigits n ≠ [] := decDigits_ne_nil n
  have hempty : (decDigits n).isEmpty = false := by
    cases hl : decDigits n with
    | nil => exact absurd hl hne
    | cons c t => rfl
  unfold parseDecimal
  rw [hempty, decDigits_all_isDigit n]
  simp [decDigits_foldl n 0]

theorem chunkName_drop (i : Nat) : (chunkName i).data.drop 6 = (Nat.repr i).data := by
  show (("chunk_" : String) ++ toString i).data.drop 6 = _
  rw [String.data_append]
  have h6 : ("chunk_" : String).data.length = 6 := rfl
  rw [← h6, List.drop_left]
  rfl

theorem chunkIdxOf_chunkName (i : Nat) : chunkIdxOf (chunkName i) = i := by
  unfold chunkIdxOf
  rw [chunkName_drop, parseDecimal_repr]
  rfl

/-! ## Assembly lemmas -/

theorem foldl_append_eq_join (l : List (String × Bytes)) (acc : Bytes) :
    l.foldl (fun a p => a ++ p.2) acc = acc ++ (l.map (fun p => p.2)).flatten := by
  induction l generalizing acc with
  | nil => simp
  | cons x xs ih => simp [List.foldl_cons, ih, List.append_assoc]

/-- The chunk sort returns the chunk records in numeric index order: if the
chunk files of the directory are, up to directory order, exactly
`chunk_0 .. chunk_(n-1)` with contents `contents 0 .. contents (n-1)`, then
`sorted(..., key=lambda x: int(x.name.split('_')[1]))` returns them as
`[(chunk_0, contents 0), ..., (chunk_(n-1), contents (n-1))]`. -/
theorem sortedChunks_eq (d : Dir) (n : Nat) (contents : Nat → Bytes)
    (h : List.Perm (globChunks d) ((List.range n).map (fun i => (chunkName i, contents i)))) :
    sortedChunks d = (List.range n).map (fun i => (chunkName i, contents i)) := by
  have hperm : List.Perm (sortedChunks d)
      ((List.range n).map (fun i => (chunkName i, contents i))) := by
    unfold sortedChunks
    exact (List.perm_insertionSort _ _).trans h
  haveI htot : IsTotal (String × Bytes) (fun a b => chunkIdxOf a.1 ≤ chunkIdxOf b.1) :=
    ⟨fun a b => Nat.le_total _ _⟩
  haveI htrans : IsTrans (String × Bytes) (fun a b => chunkIdxOf a.1 ≤ chunkIdxOf b.1) :=
    ⟨fun _ _ _ => Nat.le_trans⟩
  have hsorted : (sortedChunks d).Sorted (fun a b => chunkIdxOf a.1 ≤ chunkIdxOf b.1) := by
    unfold sortedChunks
    exact List.sorted_insertionSort _ _
  have hkeys : List.Perm ((sortedChunks d).map (fun p => chunkIdxOf p.1)) (List.range n) := by
    have heq : ((List.range n).map (fun i => (chunkName i, contents i))).map
        (fun p => chunkIdxOf p.1) = List.range n := by
      rw [List.map_map]
      have hco : ((fun p : String × Bytes => chunkIdxOf p.1) ∘
          fun i => (chunkName i, contents i)) = id := by
        funext i
        simp [chunkIdxOf_chunkName]
      rw [hco, List.map_id]
    have h2 := hperm.map (fun p => chunkIdxOf p.1)
    rwa [heq] at h2
  have hnodup : ((sortedChunks d).map (fun p => chunkIdxOf p.1)).Nodup :=
    hkeys.nodup_iff.mpr (List.nodup_range n)
  have hne : (sortedChunks d).Pairwise (fun a b => chunkIdxOf a.1 ≠ chunkIdxOf b.1) :=
    List.pairwise_map.mp hnodup
  have hlt : (sortedChunks d).Sorted (fun a b => chunkIdxOf a.1 < chunkIdxOf b.1) :=
    (hsorted.and hne).imp (fun hab => Nat.lt_of_le_of_ne hab.1 hab.2)
  have htgt : ((List.range n).map (fun i => (chunkName i, contents i))).Sorted
      (fun a b => chunkIdxOf a.1 < chunkIdxOf b.1) := by
    rw [List.Sorted, List.pairwise_map]
    have := List.pairwise_lt_range n
    exact this.imp (fun hij => by simpa [chunkIdxOf_chunkName] using hij)
  haveI : IsAntisymm (String × Bytes) (fun a b => chunkIdxOf a.1 < chunkIdxOf b.1) :=
    ⟨fun a b h1 h2 => absurd h2 (Nat.lt_asymm h1)⟩
  exact List.eq_of_perm_of_sorted hperm hlt htgt

/-- `total_size` equals the length of the assembled stream. -/
theorem totalSizeOf_eq_length (d : Dir) : totalSizeOf d = (assembleChunks d).length := by
  unfold totalSizeOf assembleChunks
  rw [foldl_append_eq_join]
  rw [List.nil_append, List.length_flatten, List.map_map]
  rfl

/-! ## File-store lemmas -/

theorem find?_overwrite (name : String) (content : Bytes) :
    ∀ d : Dir, d.any (fun p => p.1 == name) = true →
    (d.map (fun p => if p.1 == name then (name, content) else p)).find?
      (fun p => p.1 == name) = some (name, content) := by
  intro d
  induction d with
  | nil => intro h; simp at h
  | cons p t ih =>
    intro h
    by_cases hp : (p.1 == name) = true
    · simp [List.map_cons, List.find?, hp]
    · have hpf : (p.1 == name) = false := by simpa using hp
      rw [List.any_cons, hpf, Bool.false_or] at h
      simp only [List.map_cons, List.find?, hpf, Bool.false_eq_true, if_false]
      exact ih h

theorem readFile_writeFile (d : Dir) (name : String) (content : Bytes) :
    readFile (writeFile d name content) name = some content := by
  unfold readFile writeFile
  split
  · next hany => rw [find?_overwrite name content d hany]; rfl
  · next hany =>
    have hnone : d.find? (fun p => p.1 == name) = none := by
      rw [List.find?_eq_none]
      intro x hx hpx
      exact hany (List.any_eq_true.mpr ⟨x, hx, hpx⟩)
    rw [List.find?_append, hnone]
    simp [List.find?]

theorem writeFile_mem (d : Dir) (name : String) (content : Bytes) :
    (writeFile d name content).any (fun p => p.1 == name) = true := by
  have h := readFile_writeFile d name content
  unfold readFile at h
  rcases hf : (writeFile d name content).find? (fun p => p.1 == name) with _ | a
  · rw [hf] at h; simp at h
  · have hmem := List.mem_of_find?_eq_some hf
    have htest := List.find?_some hf
    exact List.any_eq_true.mpr ⟨a, hmem, htest⟩

theorem map_fst_writeFile_of_mem (d : Dir) (name : String) (content : Bytes)
    (h : d.any (fun p => p.1 == name) = true) :
    (writeFile d name content).map Prod.fst = d.map Prod.fst := by
  unfold writeFile
  rw [if_pos h, List.map_map]
  apply List.map_congr_left
  intro p _
  by_cases hp : (p.1 == name) = true
  · simp only [Function.comp_apply, hp, if_true]
    exact (beq_iff_eq.mp hp).symm
  · have hne : p.1 ≠ name := by simpa using hp
    simp [Function.comp_apply, hne]

theorem globChunks_length_eq_of_map_fst (d₁ d₂ : Dir)
    (h : d₁.map Prod.fst = d₂.map Prod.fst) :
    (globChunks d₁).length = (globChunks d₂).length := by
  unfold globChunks
  have h1 : ∀ d : Dir, (d.filter (fun p => isChunkFile p.1)).length
      = ((d.map Prod.fst).filter isChunkFile).length := by
    intro d
    induction d with
    | nil => rfl
    | cons p t ih =>
      cases hp : isChunkFile p.1 with
      | false => simp [List.filter_cons, hp, ih]
      | true => simp [List.filter_cons, hp, ih]
  rw [h1 d₁, h1 d₂, h]

/-! ## Finalize-path lemmas -/

theorem finalizeErrorHandler_snd (e : String) (d : Option Dir) :
    (finalizeErrorHandler e d false).2 = none := by
  cases d <;> rfl

theorem finalizeErrorHandler_fst (e : String) (d : Option Dir) (ecf : Bool) :
    (finalizeErrorHandler e d ecf).1 = .error ⟨500, "Erro na compressão: " ++ e⟩ := by
  cases d <;> rfl

theorem filter_map_overwrite (name : String) (content : Bytes)
    (h : isChunkFile name = false) (d : Dir) :
    (d.map (fun p => if p.1 == name then (name, content) else p)).filter
      (fun p => isChunkFile p.1) = d.filter (fun p => isChunkFile p.1) := by
  rw [List.filter_map]
  have h1 : d.filter ((fun p => isChunkFile p.1) ∘
      (fun p => if p.1 == name then (name, content) else p))
      = d.filter (fun p => isChunkFile p.1) := by
    apply List.filter_congr
    intro p _
    by_cases hp : (p.1 == name) = true
    · have hpe : p.1 = name := beq_iff_eq.mp hp
      simp [Function.comp_apply, hp, hpe]
    · have hne : p.1 ≠ name := by simpa using hp
      simp [Function.comp_apply, hne]
  rw [h1]
  conv_rhs => rw [← List.map_id (d.filter (fun p => isChunkFile p.1))]
  apply List.map_congr_left
  intro p hp
  have hmem := List.of_mem_filter hp
  by_cases hq : (p.1 == name) = true
  · exfalso
    rw [beq_iff_eq.mp hq] at hmem
    rw [h] at hmem
    exact Bool.false_ne_true hmem
  · have hne : p.1 ≠ name := by simpa using hq
    simp [hne]

theorem globChunks_writeFile_nonchunk (d : Dir) (name : String) (content : Bytes)
    (h : isChunkFile name = false) :
    globChunks (writeFile d name content) = globChunks d := by
  unfold globChunks writeFile
  split
  · exact filter_map_overwrite name content h d
  · rw [List.filter_append]
    simp [h]

theorem assembleChunks_congr (d₁ d₂ : Dir) (h : globChunks d₁ = globChunks d₂) :
    assembleChunks d₁ = assembleChunks d₂ := by
  unfold assembleChunks sortedChunks
  rw [h]

theorem totalSizeOf_congr (d₁ d₂ : Dir) (h : globChunks d₁ = globChunks d₂) :
    totalSizeOf d₁ = totalSizeOf d₂ := by
  unfold totalSizeOf sortedChunks
  rw [h]

theorem writeFile_not_mem (d : Dir) (name : String) (content : Bytes)
    (h : d.any (fun p => p.1 == name) = false) :
    writeFile d name content = d ++ [(name, content)] := by
  unfold writeFile
  rw [h]
  simp

/-- The success path of `compress_complete_file`: when the session directory
holds only chunk files, the engine succeeds on the assembled stream, the total
chunk size is non-zero and no cleanup fault occurs, the call streams back the
engine's output and removes the session directory. -/
theorem finalize_success (fileName : String) (files : Dir)
    (engine : Bytes → String → Nat → Except String Bytes) (out : Bytes)
    (hall : ∀ p ∈ files, isChunkFile p.1 = true)
    (heng : engine (assembleChunks files) "screen" 72 = .ok out)
    (hsz : totalSizeOf files ≠ 0) :
    compress_complete_file fileName (some files) engine false false
      = (.ok ⟨out, "application/pdf", "attachment; filename=compressed_" ++ fileName⟩,
         none) := by
  have hcp : isChunkFile "complete.pdf" = false := by decide
  have hglob : globChunks (writeFile files "complete.pdf" []) = globChunks files :=
    globChunks_writeFile_nonchunk files _ _ hcp
  have hasm : assembleChunks (writeFile files "complete.pdf" []) = assembleChunks files :=
    assembleChunks_congr _ _ hglob
  have htot : totalSizeOf (writeFile files "complete.pdf" []) = totalSizeOf files :=
    totalSizeOf_congr _ _ hglob
  have hany : files.any (fun p => p.1 == "complete.pdf") = false := by
    rw [Bool.eq_false_iff]
    intro hc
    rcases List.any_eq_true.mp hc with ⟨p, hp, he⟩
    have h1 := hall p hp
    rw [beq_iff_eq.mp he, hcp] at h1
    exact Bool.false_ne_true h1
  have hf1 : writeFile files "complete.pdf" [] = files ++ [("complete.pdf", [])] :=
    writeFile_not_mem files _ _ hany
  have hany2 : ((files ++ [("complete.pdf", [])]).any
      (fun p => p.1 == "complete.pdf")) = true := by
    rw [List.any_append]
    simp
  have hmapf : files.map (fun p => if p.1 == "complete.pdf"
      then ("complete.pdf", assembleChunks files) else p) = files := by
    conv_rhs => rw [← List.map_id files]
    apply List.map_congr_left
    intro p hp
    have h1 := hall p hp
    have hne : p.1 ≠ "complete.pdf" := by
      intro hc
      rw [hc, hcp] at h1
      exact Bool.false_ne_true h1
    simp [hne]
  have hf2 : writeFile (files ++ [("complete.pdf", [])]) "complete.pdf"
      (assembleChunks files) = files ++ [("complete.pdf", assembleChunks files)] := by
    unfold writeFile
    rw [hany2, if_pos rfl]
    rw [List.map_append, hmapf]
    simp
  have hf3 : (files ++ [("complete.pdf", assembleChunks files)]).filter
      (fun p => !isChunkFile p.1) = [("complete.pdf", assembleChunks files)] := by
    rw [List.filter_append]
    have hnil : files.filter (fun p => !isChunkFile p.1) = [] := by
      rw [List.filter_eq_nil_iff]
      intro p hp
      simp [hall p hp]
    rw [hnil]
    simp [hcp]
  simp only [compress_complete_file, hasm, heng, htot]
  rw [if_neg hsz]
  simp only [Bool.false_eq_true, if_false, hf1, hf2, hf3]
  simp

/-! ## Claims -/

/-- C1, counterexample. The claim says `compress_complete_file` fails with an
IncompleteUploadError whenever some index in `[0, totalChunks)` is missing.
In the code there is no completeness check at all: with `totalChunks = 2`
declared at upload time and only index 1 stored (index 0 missing, shown by
`readFile` returning `none` for `chunk_0`), the call succeeds and streams the
truncated assembly instead of failing. -/
theorem C1_counterexample :
    readFile [(chunkName 1, [7])] (chunkName 0) = none ∧
    (compress_complete_file "a.pdf" (some [(chunkName 1, [7])])
        (fun b _ _ => .ok b) false false).1
      = .ok ⟨[7], "application/pdf", "attachment; filename=compressed_a.pdf"⟩ := by
  constructor
  · decide
  · decide

/-- C1, amended. `compress_complete_file` performs no completeness
verification: whatever chunk files are stored (no hypothesis relates them to
any declared `totalChunks`, and the operation does not even receive
`totalChunks`), it assembles them in numeric order and proceeds to compress;
provided the engine succeeds, the assembled size is non-zero and cleanup does
not fault, the call returns the engine's output — it never raises an
IncompleteUploadError (no such error exists in the code). -/
theorem C1_amended (fileName : String) (files : Dir)
    (engine : Bytes → String → Nat → Except String Bytes) (out : Bytes)
    (hall : ∀ p ∈ files, isChunkFile p.1 = true)
    (heng : engine (assembleChunks files) "screen" 72 = .ok out)
    (hsz : totalSizeOf files ≠ 0) :
    (compress_complete_file fileName (some files) engine false false).1
      = .ok ⟨out, "application/pdf", "attachment; filename=compressed_" ++ fileName⟩ := by
  rw [finalize_success fileName files engine out hall heng hsz]

/-- C1, amended, witness: a session holding only `chunk_1` (a gap at index 0)
still compresses successfully. -/
theorem C1_amended_witness :
    (compress_complete_file "w.pdf" (some [(chunkName 1, [9, 9])])
        (fun b _ _ => .ok (b.take 1)) false false).1
      = .ok ⟨[9], "application/pdf", "attachment; filename=compressed_w.pdf"⟩ :=
  C1_amended "w.pdf" [(chunkName 1, [9, 9])] _ [9]
    (by decide) (by decide) (by decide)

/-- C2: if the chunk files of a session directory are, in arbitrary
directory (upload) order, exactly `chunk_0 .. chunk_(n-1)` with contents
`contents i`, then the byte stream assembled by `compress_complete_file`
equals the byte-exact concatenation of the contents sorted numerically by
index, with no separators. The hypothesis places no bound on `n`, so it covers
sessions with more than 10 chunks, where a lexicographic sort would differ
(`"chunk_10" < "chunk_2"` as strings); the sort key `int(name.split('_')[1])`
is numeric, so index 10 comes after index 9. -/
theorem C2_numeric_order (d : Dir) (n : Nat) (contents : Nat → Bytes)
    (h : List.Perm (globChunks d)
      ((List.range n).map (fun i => (chunkName i, contents i)))) :
    assembleChunks d = ((List.range n).map contents).flatten := by
  unfold assembleChunks
  rw [foldl_append_eq_join, sortedChunks_eq d n contents h]
  simp [List.map_map]
  rfl

/-- C2, witness: 12 chunks uploaded in a scrambled order in which `chunk_10`
and `chunk_11` arrive before `chunk_2`; the assembly is still in numeric
index order `0..11`. -/
theorem C2_numeric_order_witness :
    assembleChunks [(chunkName 10, [10]), (chunkName 2, [2]), (chunkName 0, [0]),
      (chunkName 1, [1]), (chunkName 11, [11]), (chunkName 3, [3]),
      (chunkName 4, [4]), (chunkName 5, [5]), (chunkName 6, [6]),
      (chunkName 7, [7]), (chunkName 8, [8]), (chunkName 9, [9])]
      = ((List.range 12).map (fun i => [i])).flatten :=
  C2_numeric_order _ 12 (fun i => [i]) (by decide)

/-- C3: the fallback law of `compress_pdf_file`. If the Ghostscript run
produces an output at least as long as the (non-empty) input, the returned
`CompressionResult` carries exactly the original bytes, with
`original_size = compressed_size = len(input)` and `compression_ratio = 0`:
the operation is never counter-productive. -/
theorem C3_fallback (c : PDFCompressor) (temp_dir filename : String)
    (content out : Bytes) (runGs : List String → Bytes → GsOutcome)
    (level : String) (res : Nat)
    (hrun : runGs (get_ghostscript_command c.ghostscript_path
        (temp_dir ++ "/" ++ filename) (temp_dir ++ "/compressed_" ++ filename)
        level res) content = .wrote out)
    (hge : content.length ≤ out.length)
    (hne : content ≠ []) :
    compress_pdf_file c temp_dir filename content runGs level res
      = .ok ⟨content, content.length, content.length, 0, filename, filename⟩ := by
  have h0 : ¬ content.length = 0 := fun hc => hne (List.length_eq_zero.mp hc)
  simp only [compress_pdf_file, hrun]
  rw [if_neg h0, if_pos hge]

/-- C3, witness: a 1-byte input whose "compressed" form is 2 bytes long falls
back to the original bytes with ratio 0. -/
theorem C3_fallback_witness :
    compress_pdf_file ⟨"/usr/local/bin/gs"⟩ "/tmp/t" "a.pdf" [1]
        (fun _ _ => .wrote [1, 2]) "screen" 72
      = .ok ⟨[1], 1, 1, 0, "a.pdf", "a.pdf"⟩ :=
  C3_fallback ⟨"/usr/local/bin/gs"⟩ "/tmp/t" "a.pdf" [1] [1, 2]
    (fun _ _ => .wrote [1, 2]) "screen" 72 rfl (by decide) (by decide)

/-- C4: after any `compress_complete_file` call in which the cleanup
operations themselves do not fault — whether the call returns a success or
propagates any failure (missing directory, engine failure, zero total size,
leftover stray files) — the session directory and all chunk artifacts for the
file name are gone: cleanup runs on the success path and on every error
path. -/
theorem C4_cleanup (fileName : String) (d : Option Dir)
    (engine : Bytes → String → Nat → Except String Bytes) :
    (compress_complete_file fileName d engine false false).2 = none := by
  cases d with
  | none => rfl
  | some files =>
    rcases heng : engine (assembleChunks (writeFile files "complete.pdf" []))
        "screen" 72 with e | buf
    · simp only [compress_complete_file, heng]
      exact finalizeErrorHandler_snd _ _
    · simp only [compress_complete_file, heng]
      by_cases h0 : totalSizeOf (writeFile files "complete.pdf" []) = 0
      · rw [if_pos h0]
        exact finalizeErrorHandler_snd _ _
      · rw [if_neg h0, if_neg Bool.false_ne_true]
        split
        · rfl
        · exact finalizeErrorHandler_snd _ _

/-- C5, counterexample. The claim says a cleanup fault after a successful
compression never turns the success into a failure. In the code the
success-path cleanup (unlink chunks, unlink `complete.pdf`, `rmdir`) runs
INSIDE the `try`, before the response is built, so a cleanup fault is caught
by the same `except` branch as a compression error: on the very same session
and engine for which the fault-free run returns the compressed stream, a
cleanup fault makes the call return `HTTPException(500, ...)`. -/
theorem C5_counterexample :
    (compress_complete_file "a.pdf" (some [(chunkName 0, [1, 2, 3])])
        (fun b _ _ => .ok (b.take 1)) false false).1
      = .ok ⟨[1], "application/pdf", "attachment; filename=compressed_a.pdf"⟩ ∧
    (compress_complete_file "a.pdf" (some [(chunkName 0, [1, 2, 3])])
        (fun b _ _ => .ok (b.take 1)) true false).1
      = .error ⟨500, "Erro na compressão: cleanup OS error"⟩ := by
  constructor
  · decide
  · decide

/-- C5, amended. A fault during the success-path cleanup propagates: whenever
the fault-free call would return a success, the same call with a success-path
cleanup fault returns `HTTPException(500)` — a cleanup fault after a
successful compression DOES turn the success into a failure. Only during the
error-path cleanup (lines 162–172) are cleanup faults swallowed: there they
never alter the propagated primary error. -/
theorem C5_amended :
    (∀ (fileName : String) (d : Option Dir)
        (engine : Bytes → String → Nat → Except String Bytes) (r : StreamingResponse),
        (compress_complete_file fileName d engine false false).1 = .ok r →
        (compress_complete_file fileName d engine true false).1
          = .error ⟨500, "Erro na compressão: cleanup OS error"⟩) ∧
    (∀ (fileName : String) (d : Option Dir)
        (engine : Bytes → String → Nat → Except String Bytes) (jf : Bool),
        (compress_complete_file fileName d engine jf true).1
          = (compress_complete_file fileName d engine jf false).1) := by
  constructor
  · intro fileName d engine r hok
    cases d with
    | none =>
      rw [show compress_complete_file fileName none engine false false
          = finalizeErrorHandler "[Errno 2] No such file or directory" none false from rfl,
        finalizeErrorHandler_fst] at hok
      exact absurd hok (by simp)
    | some files =>
      rcases heng : engine (assembleChunks (writeFile files "complete.pdf" []))
          "screen" 72 with e | buf
      · simp only [compress_complete_file, heng, finalizeErrorHandler_fst] at hok
        exact absurd hok (by simp)
      · simp only [compress_complete_file, heng] at hok ⊢
        by_cases h0 : totalSizeOf (writeFile files "complete.pdf" []) = 0
        · rw [if_pos h0, finalizeErrorHandler_fst] at hok
          exact absurd hok (by simp)
        · rw [if_neg h0, if_pos trivial, finalizeErrorHandler_fst]
          rfl
  · intro fileName d engine jf
    cases d with
    | none =>
      simp only [compress_complete_file]
      rw [finalizeErrorHandler_fst, finalizeErrorHandler_fst]
    | some files =>
      rcases heng : engine (assembleChunks (writeFile files "complete.pdf" []))
          "screen" 72 with e | buf
      · simp only [compress_complete_file, heng, finalizeErrorHandler_fst]
      · simp only [compress_complete_file, heng]
        by_cases h0 : totalSizeOf (writeFile files "complete.pdf" []) = 0
        · rw [if_pos h0, finalizeErrorHandler_fst, if_pos h0, finalizeErrorHandler_fst]
        · rw [if_neg h0, if_neg h0]
          cases jf with
          | true => rw [if_pos rfl, finalizeErrorHandler_fst, if_pos rfl,
              finalizeErrorHandler_fst]
          | false =>
            rw [if_neg Bool.false_ne_true, if_neg Bool.false_ne_true]
            split
            · rfl
            · rw [finalizeErrorHandler_fst, finalizeErrorHandler_fst]

/-- C5, amended, witness: on a concrete session whose fault-free finalize
succeeds, injecting a success-path cleanup fault yields the 500 error. -/
theorem C5_amended_witness :
    (compress_complete_file "b.pdf" (some [(chunkName 0, [5, 6])])
        (fun _ _ _ => .ok []) true false).1
      = .error ⟨500, "Erro na compressão: cleanup OS error"⟩ :=
  C5_amended.1 "b.pdf" (some [(chunkName 0, [5, 6])]) (fun _ _ _ => .ok [])
    ⟨[], "application/pdf", "attachment; filename=compressed_b.pdf"⟩ (by decide)

/-- C6: uploading the same `(fileName, index)` twice (with `totalChunks ≠ 0`,
so the progress division does not raise) overwrites: after the second call the
stored bytes at `chunk_index` are the second payload — the one assembly will
read — and both calls succeed with `chunksReceived` counting distinct indices
only: the second call reports the same count as the first, never
double-counting the re-uploaded index. -/
theorem C6_overwrite (d : Option Dir) (i t : Nat) (b₁ b₂ : Bytes) (ht : t ≠ 0) :
    readFile ((upload_chunk (some b₂) i t
        (upload_chunk (some b₁) i t d).2).2.getD []) (chunkName i) = some b₂ ∧
    ∃ r₁ r₂ : ChunkResponse,
      (upload_chunk (some b₁) i t d).1 = .ok r₁ ∧
      (upload_chunk (some b₂) i t (upload_chunk (some b₁) i t d).2).1 = .ok r₂ ∧
      r₂.chunksReceived = r₁.chunksReceived := by
  simp only [upload_chunk, if_neg ht]
  constructor
  · exact readFile_writeFile _ _ _
  · refine ⟨_, _, rfl, rfl, ?_⟩
    exact globChunks_length_eq_of_map_fst _ _
      (map_fst_writeFile_of_mem (writeFile (d.getD []) (chunkName i) b₁)
        (chunkName i) b₂ (writeFile_mem (d.getD []) (chunkName i) b₁))

/-- C6, witness: re-uploading index 0 with different bytes: the second payload
is stored, both calls succeed, and the received count stays at 1. -/
theorem C6_overwrite_witness :
    readFile ((upload_chunk (some [2]) 0 2
        (upload_chunk (some [1]) 0 2 none).2).2.getD []) (chunkName 0) = some [2] ∧
    ∃ r₁ r₂ : ChunkResponse,
      (upload_chunk (some [1]) 0 2 none).1 = .ok r₁ ∧
      (upload_chunk (some [2]) 0 2 (upload_chunk (some [1]) 0 2 none).2).1 = .ok r₂ ∧
      r₂.chunksReceived = r₁.chunksReceived :=
  C6_overwrite none 0 2 [1] [2] (by decide)

/-- C7, counterexample. The claim says an empty payload fails with an
EmptyChunk error and is not persisted. In the code the guard `if not chunk:`
tests the `UploadFile` object — always truthy when the required parameter is
present — never the payload: an empty chunk upload succeeds (the call returns
`.ok`) and the empty chunk IS persisted (readable back as `some []`). -/
theorem C7_counterexample :
    (upload_chunk (some []) 0 3 none).1.isOk = true ∧
    readFile ((upload_chunk (some []) 0 3 none).2.getD []) (chunkName 0) = some [] := by
  constructor
  · decide
  · decide

/-- C7, amended. `upload_chunk` accepts any payload, including the empty one:
whenever the `UploadFile` parameter is present and `totalChunks ≠ 0`, the call
returns a success response and persists the (possibly empty) payload under
`chunk_index`. No `EmptyChunk` error exists in the code; only a missing file
object — impossible for the required `File(...)` parameter — is rejected. -/
theorem C7_amended (d : Option Dir) (i t : Nat) (content : Bytes) (ht : t ≠ 0) :
    (∃ r : ChunkResponse, (upload_chunk (some content) i t d).1 = .ok r) ∧
    readFile ((upload_chunk (some content) i t d).2.getD [])
      (chunkName i) = some content := by
  simp only [upload_chunk, if_neg ht]
  exact ⟨⟨_, rfl⟩, readFile_writeFile _ _ _⟩

/-- C7, amended, witness: an empty payload at a fresh index is accepted and
stored. -/
theorem C7_amended_witness :
    (∃ r : ChunkResponse, (upload_chunk (some []) 5 4 none).1 = .ok r) ∧
    readFile ((upload_chunk (some []) 5 4 none).2.getD [])
      (chunkName 5) = some [] :=
  C7_amended none 5 4 [] (by decide)

/-- C8, counterexample. The claim says that when the engine binary is at none
of the probed paths, every subsequent compress call fails fast with an
"engine unavailable" error — rather than, for example, the whole process
failing at startup. The code does the excluded thing: `pdf_compressor =
PDFCompressor()` runs at module import, `_find_ghostscript` raises
`RuntimeError` inside `__init__`, so the import — i.e. process startup —
fails, and no compress call can ever be made. -/
theorem C8_counterexample :
    pdf_compressor (fun _ => false)
      = .error "Ghostscript não encontrado no sistema" := rfl

/-- C8, amended. If `os.path.exists` is false for the default path and every
alternative path, the module-level `pdf_compressor = PDFCompressor()` raises
`RuntimeError("Ghostscript não encontrado no sistema")` at import time: the
process fails at startup, and no compress call (which would require a
constructed `PDFCompressor`) ever runs. The error is the `_find_ghostscript`
RuntimeError, distinct from the compression-failure `ValueError`s of
`compress_pdf_file`. -/
theorem C8_amended (pathExists : String → Bool)
    (h0 : pathExists default_path = false)
    (h1 : ∀ p ∈ alternative_paths, pathExists p = false) :
    pdf_compressor pathExists = .error "Ghostscript não encontrado no sistema" := by
  unfold pdf_compressor PDFCompressor.init find_ghostscript
  rw [h0]
  have hnone : alternative_paths.find? pathExists = none :=
    List.find?_eq_none.mpr (fun x hx => by simp [h1 x hx])
  rw [if_neg Bool.false_ne_true, hnone]
  rfl

/-- C8, amended, witness: with no probed path present, startup fails with the
RuntimeError message. -/
theorem C8_amended_witness :
    pdf_compressor (fun p => p == "/nowhere/gs")
      = .error "Ghostscript não encontrado no sistema" :=
  C8_amended (fun p => p == "/nowhere/gs") (by decide) (by decide)

/-- C9: invariants of every `CompressionResult` returned by
`compress_pdf_file`. When the Ghostscript run wrote `out` and the call
returned a result `r`, then `r.compressed_size = len(r.compressed_content)`;
when the fallback applied (engine output at least as long as the input) the
ratio is 0, and when it did not (output strictly shorter) the ratio is
`(1 - compressed_size/original_size) * 100`. -/
theorem C9_invariants (c : PDFCompressor) (temp_dir filename : String)
    (content out : Bytes) (runGs : List String → Bytes → GsOutcome)
    (level : String) (res : Nat) (r : CompressionResult)
    (hrun : runGs (get_ghostscript_command c.ghostscript_path
        (temp_dir ++ "/" ++ filename) (temp_dir ++ "/compressed_" ++ filename)
        level res) content = .wrote out)
    (hok : compress_pdf_file c temp_dir filename content runGs level res = .ok r) :
    r.compressed_size = r.compressed_content.length ∧
    (content.length ≤ out.length → CompressionResult.compression_ratio r = 0) ∧
    (out.length < content.length → CompressionResult.compression_ratio r
        = (1 - (r.compressed_size : ℚ) / (r.original_size : ℚ)) * 100) := by
  simp only [compress_pdf_file, hrun] at hok
  by_cases h0 : content.length = 0
  · rw [if_pos h0] at hok
    exact absurd hok (by simp)
  · rw [if_neg h0] at hok
    by_cases hge : content.length ≤ out.length
    · rw [if_pos hge] at hok
      obtain rfl := (Except.ok.inj hok).symm
      refine ⟨rfl, fun _ => rfl, fun hlt => ?_⟩
      exact absurd hge (by omega)
    · rw [if_neg hge] at hok
      obtain rfl := (Except.ok.inj hok).symm
      refine ⟨rfl, fun hle => ?_, fun _ => rfl⟩
      exact absurd hle hge

/-- C9, witness: a 1-byte input with a 2-byte engine output takes the
fallback; the result satisfies the invariants with ratio 0. -/
theorem C9_invariants_witness :
    (⟨[1], 1, 1, 0, "w.pdf", "w.pdf"⟩ : CompressionResult).compressed_size
        = (⟨[1], 1, 1, 0, "w.pdf", "w.pdf"⟩ : CompressionResult).compressed_content.length ∧
    ((1 : Nat) ≤ 2 → CompressionResult.compression_ratio
        (⟨[1], 1, 1, 0, "w.pdf", "w.pdf"⟩ : CompressionResult) = 0) ∧
    ((2 : Nat) < 1 → CompressionResult.compression_ratio
        (⟨[1], 1, 1, 0, "w.pdf", "w.pdf"⟩ : CompressionResult)
        = (1 - ((1 : Nat) : ℚ) / ((1 : Nat) : ℚ)) * 100) :=
  C9_invariants ⟨"/usr/local/bin/gs"⟩ "/tmp/t" "w.pdf" [1] [1, 2]
    (fun _ _ => .wrote [1, 2]) "screen" 72 ⟨[1], 1, 1, 0, "w.pdf", "w.pdf"⟩
    rfl (by decide)

/-- C10: the compression profile the public finalize operation passes to the
engine is the fixed constant (level `'screen'`, resolution 72): the route
accepts only a file name, so no caller input reaches the profile — the call's
result depends on the engine only through its behaviour at the profile
`("screen", 72)` on the assembled bytes — and the Ghostscript command built
for that profile is a fixed argument list (apart from the input/output
paths). -/
theorem C10_fixed_profile :
    (∀ (fileName : String) (d : Option Dir)
        (e₁ e₂ : Bytes → String → Nat → Except String Bytes) (jf ejf : Bool),
        (∀ b, e₁ b "screen" 72 = e₂ b "screen" 72) →
        compress_complete_file fileName d e₁ jf ejf
          = compress_complete_file fileName d e₂ jf ejf) ∧
    (∀ gs inp outp : String,
        get_ghostscript_command gs inp outp "screen" 72 =
          [gs, "-sDEVICE=pdfwrite", "-dCompatibilityLevel=1.4",
           "-dPDFSETTINGS=/screen", "-dNOPAUSE", "-dQUIET", "-dBATCH", "-r72",
           "-dColorImageDownsampleType=/Bicubic", "-dColorImageResolution=72",
           "-dGrayImageDownsampleType=/Bicubic", "-dGrayImageResolution=72",
           "-dMonoImageDownsampleType=/Bicubic", "-dMonoImageResolution=72",
           "-dAutoFilterColorImages=false", "-dColorImageFilter=/DCTEncode",
           "-dAutoFilterGrayImages=false", "-dGrayImageFilter=/DCTEncode",
           "-sOutputFile=" ++ outp, inp]) := by
  constructor
  · intro fileName d e₁ e₂ jf ejf h
    cases d with
    | none => rfl
    | some files =>
      simp only [compress_complete_file]
      rw [h (assembleChunks (writeFile files "complete.pdf" []))]
  · intro gs inp outp
    rfl

/-- C10, witness: two engines that agree at the profile `("screen", 72)` but
differ elsewhere give identical finalize results. -/
theorem C10_fixed_profile_witness :
    compress_complete_file "a.pdf" (some [(chunkName 0, [3])])
        (fun b _ _ => .ok b) false false
      = compress_complete_file "a.pdf" (some [(chunkName 0, [3])])
        (fun b l _ => if l == "screen" then .ok b else .error "other profile")
        false false :=
  C10_fixed_profile.1 "a.pdf" (some [(chunkName 0, [3])])
    (fun b _ _ => .ok b)
    (fun b l _ => if l == "screen" then .ok b else .error "other profile")
    false false (fun _ => rfl)
